import Mathlib

/-!
Shallow embedding of the build/world tools of the
minecraft-bedrock-mcp-server repository.

Coordinates arrive as arbitrary finite numbers; we model them as rationals.
JavaScript `Math.floor` becomes `Int.floor`.  The remote Socket-BE world is
modelled as an explicit gateway: a function from fill requests to
`Except String Int` (a thrown/rejected promise becomes `Except.error`,
a resolved count becomes `Except.ok`).  Every `execute` returns the
`ToolCallResult` together with the ordered list of gateway calls it issued,
so that claims about "how many gateway calls occur" are statable.
-/

namespace MCB

/-- An integer lattice position `{x, y, z}` as passed to `fillBlocks`. -/
structure Pos where
  x : Int
  y : Int
  z : Int
deriving Repr, DecidableEq

/-- One gateway fill request: the two corners and the block id submitted to
`this.world.fillBlocks`. -/
structure FillCall where
  from_ : Pos
  to_ : Pos
  blockId : String
deriving Repr, DecidableEq

/-- The world gateway as seen by `BuildCubeTool`: each fill either resolves
with an affected-block count or rejects with an error message. -/
def Gateway : Type := FillCall → Except String Int

/-- The six corner coordinates after `Math.floor` (the `coords` object of
`BuildCubeTool.execute`). -/
structure Coords where
  x1 : Int
  y1 : Int
  z1 : Int
  x2 : Int
  y2 : Int
  z2 : Int
deriving Repr, DecidableEq

/-- The arguments of `BuildCubeTool.execute`.  Optional fields are `Option`
(`none` = absent/undefined in JavaScript). -/
structure BuildArgs where
  action : Option String := none
  x1 : ℚ
  y1 : ℚ
  z1 : ℚ
  x2 : ℚ
  y2 : ℚ
  z2 : ℚ
  material : Option String := none
  hollow : Option Bool := none

/-- The `data` object of a successful build result. -/
structure BuildData where
  type : String
  from_ : Pos
  to_ : Pos
  material : String
  hollow : Bool
  volume : Int
  apiUsed : String
deriving Repr, DecidableEq

/-- The `ToolCallResult` returned by `BuildCubeTool.execute`. -/
structure BuildResult where
  success : Bool
  message : String
  data : Option BuildData := none
deriving Repr, DecidableEq

namespace BuildCubeTool

/-- The coordinate normalization step (`Math.floor` on all six inputs). -/
def floorCoords (a : BuildArgs) : Coords :=
  { x1 := ⌊a.x1⌋, y1 := ⌊a.y1⌋, z1 := ⌊a.z1⌋
    x2 := ⌊a.x2⌋, y2 := ⌊a.y2⌋, z2 := ⌊a.z2⌋ }

/-- `Math.abs(coords.x2 - coords.x1 + 1) * Math.abs(coords.y2 - coords.y1 + 1)
* Math.abs(coords.z2 - coords.z1 + 1)` (line 158 of the tool). -/
def cubeVolume (c : Coords) : Int :=
  |c.x2 - c.x1 + 1| * |c.y2 - c.y1 + 1| * |c.z2 - c.z1 + 1|

/-- Block-id normalization: default material is `minecraft:stone`; a bare
name (the character `:` occurs nowhere in it) gets the `minecraft:`
namespace put in front.  `blockId.includes(':')` is modelled as membership
of the colon character in the string's character list. -/
def normalizeBlockId (material : Option String) : String :=
  let blockId := material.getD "minecraft:stone"
  if blockId.data.contains ':' then blockId else "minecraft:" ++ blockId

/-- The outer fill request of a build: the full region with the normalized
block id. -/
def outerCall (c : Coords) (blockId : String) : FillCall :=
  { from_ := ⟨c.x1, c.y1, c.z1⟩, to_ := ⟨c.x2, c.y2, c.z2⟩, blockId := blockId }

/-- The per-axis interior bounds of a hollow build (min+1 .. max-1). -/
def innerLo (a b : Int) : Int := min a b + 1

def innerHi (a b : Int) : Int := max a b - 1

/-- The check `innerX1 <= innerX2 && innerY1 <= innerY2 && innerZ1 <= innerZ2`:
the hollow shell has a non-degenerate interior. -/
def interiorExists (c : Coords) : Prop :=
  innerLo c.x1 c.x2 ≤ innerHi c.x1 c.x2 ∧
  innerLo c.y1 c.y2 ≤ innerHi c.y1 c.y2 ∧
  innerLo c.z1 c.z2 ≤ innerHi c.z1 c.z2

instance (c : Coords) : Decidable (interiorExists c) := by
  unfold interiorExists; infer_instance

/-- The interior fill request of a hollow build: one block inward on every
axis, filled with air. -/
def innerCall (c : Coords) : FillCall :=
  { from_ := ⟨innerLo c.x1 c.x2, innerLo c.y1 c.y2, innerLo c.z1 c.z2⟩
    to_ := ⟨innerHi c.x1 c.x2, innerHi c.y1 c.y2, innerHi c.z1 c.z2⟩
    blockId := "minecraft:air" }

/-- The success result (message and `data`) built at lines 215-227. -/
def successResult (c : Coords) (blockId : String) (hollow : Bool)
    (blocksPlaced : Int) : BuildResult :=
  { success := true
    message := (if hollow then "Hollow" else "Solid") ++ " cube built with " ++
      blockId ++ " from (" ++ toString c.x1 ++ "," ++ toString c.y1 ++ "," ++
      toString c.z1 ++ ") to (" ++ toString c.x2 ++ "," ++ toString c.y2 ++
      "," ++ toString c.z2 ++ "). Placed " ++ toString blocksPlaced ++
      " blocks."
    data := some
      { type := "cube"
        from_ := ⟨c.x1, c.y1, c.z1⟩
        to_ := ⟨c.x2, c.y2, c.z2⟩
        material := blockId
        hollow := hollow
        volume := blocksPlaced
        apiUsed := "Socket-BE" } }

/-- The failure result produced when a fill call throws: the inner
`catch (error)` at lines 228-233. -/
def buildingError (e : String) : BuildResult :=
  { success := false, message := "Building error: " ++ e }

/-- `BuildCubeTool.execute`.  `world` is `none` when no world session is
connected (`!this.world`).  Returns the result together with the ordered
list of gateway fill calls issued. -/
def execute (world : Option Gateway) (args : BuildArgs) :
    BuildResult × List FillCall :=
  let action := args.action.getD "build"
  if action ≠ "build" then
    ({ success := false
       message := "Unknown action: " ++ action ++
         ". Only \x27build\x27 is supported." }, [])
  else
    let coords := floorCoords args
    if coords.y1 < -64 ∨ coords.y1 > 320 ∨ coords.y2 < -64 ∨ coords.y2 > 320 then
      ({ success := false
         message := "Y coordinates must be between -64 and 320" }, [])
    else
      let volume := cubeVolume coords
      if volume > 32768 then
        ({ success := false
           message := "Volume too large (maximum 32768 blocks)" }, [])
      else
        match world with
        | none =>
          ({ success := false
             message := "World not available. Ensure Minecraft is connected." }, [])
        | some g =>
          let blockId := normalizeBlockId args.material
          let hollow := args.hollow.getD false
          if hollow then
            match g (outerCall coords blockId) with
            | .error e => (buildingError e, [outerCall coords blockId])
            | .ok outerCount =>
              if interiorExists coords then
                match g (innerCall coords) with
                | .error e =>
                  (buildingError e, [outerCall coords blockId, innerCall coords])
                | .ok removedBlocks =>
                  (successResult coords blockId true (outerCount - removedBlocks),
                   [outerCall coords blockId, innerCall coords])
              else
                (successResult coords blockId true outerCount,
                 [outerCall coords blockId])
          else
            match g (outerCall coords blockId) with
            | .error e => (buildingError e, [outerCall coords blockId])
            | .ok blocksPlaced =>
              (successResult coords blockId false blocksPlaced,
               [outerCall coords blockId])

end BuildCubeTool

/-- The weather enumeration of the socket-be gateway. -/
inductive WeatherType where
  | Clear
  | Rain
  | Thunder
deriving Repr, DecidableEq

/-- A connected player as reported by the gateway. -/
structure Player where
  name : String
  isLocalPlayer : Bool
deriving Repr, DecidableEq

/-- The `{name, isLocal}` projection built by the `get_players` action. -/
structure PlayerInfo where
  name : String
  isLocal : Bool
deriving Repr, DecidableEq

/-- One gateway call issued by `WorldTool.execute` (the awaited
`this.world.*` methods). -/
inductive WGCall where
  | setTimeOfDay (t : Int)
  | getTimeOfDay
  | getDay
  | getCurrentTick
  | setWeather (w : WeatherType) (duration : Option Int)
  | getWeather
  | getPlayers
  | sendMessage (msg : String) (target : Option String)
  | runCommand (cmd : String)
deriving Repr, DecidableEq

/-- The world gateway as seen by `WorldTool`: each awaited method either
resolves or rejects with an error message; plus the synchronously read
world properties. -/
structure WorldGW where
  setTimeOfDay : Int → Except String Unit
  getTimeOfDay : Except String Int
  getDay : Except String Int
  getCurrentTick : Except String Int
  setWeather : WeatherType → Option Int → Except String Unit
  getWeather : Except String WeatherType
  getPlayers : Except String (List Player)
  sendMessage : String → Option String → Except String Unit
  runCommand : String → Except String String
  name : String
  connectedAt : Int
  averagePing : Int
  maxPlayers : Int
  isValid : Bool

/-- The dynamically typed `result` field of `WorldTool`'s `data`. -/
inductive WVal where
  | undef
  | num (n : Int)
  | str (s : String)
  | weather (w : WeatherType)
  | timeInfo (timeOfDay day totalTicks : Int) (description : String)
  | players (ps : List PlayerInfo)
  | worldInfo (name : String) (connectedAt averagePing maxPlayers : Int)
      (isValid : Bool)
  | connInfo (averagePing connectedAt maxPlayers : Int) (isValid : Bool)
deriving Repr, DecidableEq

/-- The `data: { action, result, timestamp }` object of a successful
world action. -/
structure WorldData where
  action : String
  result : WVal
  timestamp : Int
deriving Repr, DecidableEq

/-- The `ToolCallResult` returned by `WorldTool.execute`. -/
structure WorldResult where
  success : Bool
  message : String
  data : Option WorldData := none
deriving Repr, DecidableEq

/-- A sequence step `{ type, ...params }`.  Only the fields that the world
tool's own actions read are modelled. -/
structure SequenceStep where
  type : String
  time : Option Int := none
  weather : Option String := none
  duration : Option Int := none
  message : Option String := none
  target : Option String := none
  command : Option String := none
deriving Repr, DecidableEq

/-- The arguments of `WorldTool.execute`. -/
structure WorldArgs where
  action : String
  time : Option Int := none
  weather : Option String := none
  duration : Option Int := none
  message : Option String := none
  target : Option String := none
  command : Option String := none
  steps : Option (List SequenceStep) := none
deriving Repr, DecidableEq

namespace WorldTool

/-- `getTimeDescription`: tick count to a human time-of-day label. -/
def getTimeDescription (ticks : Int) : String :=
  if 0 ≤ ticks ∧ ticks < 1000 then "Dawn"
  else if 1000 ≤ ticks ∧ ticks < 5000 then "Morning"
  else if 5000 ≤ ticks ∧ ticks < 7000 then "Noon"
  else if 7000 ≤ ticks ∧ ticks < 11000 then "Afternoon"
  else if 11000 ≤ ticks ∧ ticks < 13000 then "Dusk"
  else if 13000 ≤ ticks ∧ ticks < 17000 then "Night"
  else if 17000 ≤ ticks ∧ ticks < 19000 then "Midnight"
  else "Late Night"

/-- `weather.toLowerCase()`, modelled characterwise. -/
def lowercase (s : String) : String :=
  ⟨s.data.map Char.toLower⟩

/-- `normalizeWeatherType`: case-insensitive match on the weather string,
defaulting to Clear. -/
def normalizeWeatherType (weather : String) : WeatherType :=
  match lowercase weather with
  | "clear" => WeatherType.Clear
  | "rain" => WeatherType.Rain
  | "thunder" => WeatherType.Thunder
  | _ => WeatherType.Clear

/-- Printing of a `WeatherType` inside the `get_weather` message. -/
def weatherName : WeatherType → String
  | WeatherType.Clear => "Clear"
  | WeatherType.Rain => "Rain"
  | WeatherType.Thunder => "Thunder"

/-- Failure result of a plain `return { success: false, message }` or of
`createErrorResponse`. -/
def failWith (msg : String) : WorldResult :=
  { success := false, message := msg }

/-- The failure result produced by the surrounding `catch (error)` at lines
191-196. -/
def worldError (e : String) : WorldResult :=
  { success := false, message := "World management error: " ++ e }

/-- The success envelope `{ success: true, message, data: { action, result,
timestamp } }` built after the switch.  `now` stands for `Date.now()`. -/
def okWith (action : String) (result : WVal) (now : Int) (msg : String) :
    WorldResult :=
  { success := true, message := msg
    data := some { action := action, result := result, timestamp := now } }

/-- `WorldTool.execute`.  `world` is `none` when no world session is
connected.  `now` stands for `Date.now()`.  `execSeq` is the behaviour of
the base class method `executeSequence` (its code lives outside the given
sources), which the `sequence` action returns directly.  The returned list
records the gateway calls issued, in order. -/
def execute (world : Option WorldGW) (now : Int)
    (execSeq : List SequenceStep → WorldResult × List WGCall)
    (args : WorldArgs) : WorldResult × List WGCall :=
  match world with
  | none =>
    (failWith "World not available. Ensure Minecraft is connected.", [])
  | some w =>
    match args.action with
    | "set_time" =>
      match args.time with
      | none => (failWith "Time required for set_time", [])
      | some t =>
        match w.setTimeOfDay t with
        | .error e => (worldError e, [WGCall.setTimeOfDay t])
        | .ok _ =>
          (okWith "set_time" WVal.undef now
            ("Time set to " ++ toString t ++ " ticks (" ++
              getTimeDescription t ++ ")"),
           [WGCall.setTimeOfDay t])
    | "get_time" =>
      match w.getTimeOfDay with
      | .error e => (worldError e, [WGCall.getTimeOfDay])
      | .ok currentTime =>
        match w.getDay with
        | .error e => (worldError e, [WGCall.getTimeOfDay, WGCall.getDay])
        | .ok currentDay =>
          match w.getCurrentTick with
          | .error e =>
            (worldError e,
             [WGCall.getTimeOfDay, WGCall.getDay, WGCall.getCurrentTick])
          | .ok currentTick =>
            (okWith "get_time"
              (WVal.timeInfo currentTime currentDay currentTick
                (getTimeDescription currentTime)) now
              ("Current time: " ++ toString currentTime ++ " ticks (" ++
                getTimeDescription currentTime ++ ") on day " ++
                toString currentDay),
             [WGCall.getTimeOfDay, WGCall.getDay, WGCall.getCurrentTick])
    | "get_day" =>
      match w.getDay with
      | .error e => (worldError e, [WGCall.getDay])
      | .ok d =>
        (okWith "get_day" (WVal.num d) now ("Current day: " ++ toString d),
         [WGCall.getDay])
    | "set_weather" =>
      match args.weather with
      | none => (failWith "Weather required for set_weather", [])
      | some ws =>
        if ws = "" then (failWith "Weather required for set_weather", [])
        else
          let weatherType := normalizeWeatherType ws
          match w.setWeather weatherType args.duration with
          | .error e => (worldError e, [WGCall.setWeather weatherType args.duration])
          | .ok _ =>
            (okWith "set_weather" WVal.undef now
              (match args.duration with
               | some d =>
                 if d ≠ 0 then
                   "Weather set to " ++ ws ++ " for " ++ toString d ++ " ticks"
                 else "Weather set to " ++ ws
               | none => "Weather set to " ++ ws),
             [WGCall.setWeather weatherType args.duration])
    | "get_weather" =>
      match w.getWeather with
      | .error e => (worldError e, [WGCall.getWeather])
      | .ok wt =>
        (okWith "get_weather" (WVal.weather wt) now
          ("Current weather: " ++ weatherName wt),
         [WGCall.getWeather])
    | "get_players" =>
      match w.getPlayers with
      | .error e => (worldError e, [WGCall.getPlayers])
      | .ok players =>
        (okWith "get_players"
          (WVal.players (players.map fun p => ⟨p.name, p.isLocalPlayer⟩)) now
          ("Found " ++ toString players.length ++ " players online"),
         [WGCall.getPlayers])
    | "get_world_info" =>
      (okWith "get_world_info"
        (WVal.worldInfo w.name w.connectedAt w.averagePing w.maxPlayers
          w.isValid) now
        ("World info retrieved: " ++ w.name), [])
    | "send_message" =>
      match args.message with
      | none => (failWith "Message required for send_message", [])
      | some m =>
        if m = "" then (failWith "Message required for send_message", [])
        else
          match w.sendMessage m args.target with
          | .error e => (worldError e, [WGCall.sendMessage m args.target])
          | .ok _ =>
            (okWith "send_message" WVal.undef now
              (match args.target with
               | some tgt =>
                 if tgt ≠ "" then
                   "Message sent to " ++ tgt ++ ": \"" ++ m ++ "\""
                 else "Message sent to all players: \"" ++ m ++ "\""
               | none => "Message sent to all players: \"" ++ m ++ "\""),
             [WGCall.sendMessage m args.target])
    | "run_command" =>
      match args.command with
      | none => (failWith "Command required for run_command", [])
      | some cmd =>
        if cmd = "" then (failWith "Command required for run_command", [])
        else
          match w.runCommand cmd with
          | .error e => (worldError e, [WGCall.runCommand cmd])
          | .ok r =>
            (okWith "run_command" (WVal.str r) now
              ("Command executed: " ++ cmd),
             [WGCall.runCommand cmd])
    | "get_connection_info" =>
      (okWith "get_connection_info"
        (WVal.connInfo w.averagePing w.connectedAt w.maxPlayers w.isValid) now
        "Connection info retrieved", [])
    | "sequence" =>
      match args.steps with
      | none => (failWith "steps array is required for sequence action", [])
      | some steps => execSeq steps
    | other => (failWith ("Unknown action: " ++ other), [])

end WorldTool

/-- Exchange of corner 1 and corner 2 of a region. -/
def swapCorners (c : Coords) : Coords :=
  { x1 := c.x2, y1 := c.y2, z1 := c.z2, x2 := c.x1, y2 := c.y1, z2 := c.z1 }

/-! Concrete instances used by witnesses and counterexamples. -/

/-- A gateway whose every fill resolves with count 7. -/
def gwOk7 : Gateway := fun _ => Except.ok 7

/-- A gateway that counts 1331 for a material fill and 729 for an air fill
(the scenario-B hollow cube). -/
def gwGlass : Gateway := fun c =>
  if c.blockId = "minecraft:air" then Except.ok 729 else Except.ok 1331

/-- A gateway whose every fill rejects with message "boom". -/
def gwBoom : Gateway := fun _ => Except.error "boom"

/-- A gateway whose material fill resolves with 1331 and whose air fill
rejects. -/
def gwInnerBoom : Gateway := fun c =>
  if c.blockId = "minecraft:air" then Except.error "boom" else Except.ok 1331

/-- Scenario A: solid stone cube (0,64,0)-(10,74,10). -/
def solidArgs : BuildArgs :=
  { x1 := 0, y1 := 64, z1 := 0, x2 := 10, y2 := 74, z2 := 10
    material := some "stone" }

/-- Scenario B: hollow glass cube (0,64,0)-(10,74,10). -/
def hollowArgs : BuildArgs :=
  { x1 := 0, y1 := 64, z1 := 0, x2 := 10, y2 := 74, z2 := 10
    material := some "glass", hollow := some true }

/-- A hollow build one block thick along Y (span 1 < 3): no interior. -/
def thinHollowArgs : BuildArgs :=
  { x1 := 0, y1 := 64, z1 := 0, x2 := 10, y2 := 64, z2 := 10
    material := some "stone", hollow := some true }

/-- A request whose Y is out of bounds while no world session exists
(y1 = 1000). -/
def noWorldOutOfBoundsArgs : BuildArgs :=
  { x1 := 0, y1 := 1000, z1 := 0, x2 := 5, y2 := 64, z2 := 5 }

/-- A request whose computed volume exceeds the cap AND whose Y is out of
bounds (y1 = 1000, 101 x 937 x 401 box). -/
def bigOutOfBoundsArgs : BuildArgs :=
  { x1 := 0, y1 := 1000, z1 := 0, x2 := 100, y2 := 64, z2 := 400 }

/-- A request whose computed volume exceeds the cap with Y in bounds
(33 x 33 x 33 = 35937 > 32768). -/
def bigVolumeArgs : BuildArgs :=
  { x1 := 0, y1 := 64, z1 := 0, x2 := 32, y2 := 96, z2 := 32 }

/-- A world gateway whose every call succeeds. -/
def wgwOk : WorldGW :=
  { setTimeOfDay := fun _ => Except.ok ()
    getTimeOfDay := Except.ok 6000
    getDay := Except.ok 3
    getCurrentTick := Except.ok 120000
    setWeather := fun _ _ => Except.ok ()
    getWeather := Except.ok WeatherType.Rain
    getPlayers := Except.ok []
    sendMessage := fun _ _ => Except.ok ()
    runCommand := fun _ => Except.ok "ok"
    name := "w", connectedAt := 0, averagePing := 1, maxPlayers := 10
    isValid := true }

/-- A world gateway whose every call rejects with message "boom". -/
def wgwBoom : WorldGW :=
  { setTimeOfDay := fun _ => Except.error "boom"
    getTimeOfDay := Except.error "boom"
    getDay := Except.error "boom"
    getCurrentTick := Except.error "boom"
    setWeather := fun _ _ => Except.error "boom"
    getWeather := Except.error "boom"
    getPlayers := Except.error "boom"
    sendMessage := fun _ _ => Except.error "boom"
    runCommand := fun _ => Except.error "boom"
    name := "w", connectedAt := 0, averagePing := 1, maxPlayers := 10
    isValid := true }

/-- A stand-in for the base-class sequence executor, never reached by the
non-sequence actions used in witnesses. -/
def seqStub : List SequenceStep → WorldResult × List WGCall :=
  fun _ => (WorldTool.failWith "unused", [])

end MCB

namespace MCB

open BuildCubeTool WorldTool

/-- C1, counterexample: the computed volume is NOT invariant under swapping
corner 1 and corner 2: for the region (0,0,0)-(5,0,0) the code computes
|5-0+1| = 6, but after the swap |0-5+1| = 4. -/
theorem volume_swap_counterexample :
    cubeVolume { x1 := 0, y1 := 0, z1 := 0, x2 := 5, y2 := 0, z2 := 0 } = 6 ∧
    cubeVolume (swapCorners { x1 := 0, y1 := 0, z1 := 0, x2 := 5, y2 := 0, z2 := 0 }) = 4 ∧
    cubeVolume (swapCorners { x1 := 0, y1 := 0, z1 := 0, x2 := 5, y2 := 0, z2 := 0 }) ≠
      cubeVolume { x1 := 0, y1 := 0, z1 := 0, x2 := 5, y2 := 0, z2 := 0 } := by
  refine ⟨by decide, by decide, by decide⟩

/-- C1, amended: the computed volume equals |x2-x1+1| * |y2-y1+1| * |z2-z1+1|;
when corner 1 is componentwise ≤ corner 2 this is the exact inclusive box
volume (x2-x1+1)(y2-y1+1)(z2-z1+1); but the computation is not symmetric
under swapping the corners: for componentwise strictly ordered corners the
swapped computation yields (x2-x1-1)(y2-y1-1)(z2-z1-1), a strictly smaller
value. -/
theorem volume_formula (c : Coords) :
    cubeVolume c =
      |c.x2 - c.x1 + 1| * |c.y2 - c.y1 + 1| * |c.z2 - c.z1 + 1| ∧
    (c.x1 ≤ c.x2 → c.y1 ≤ c.y2 → c.z1 ≤ c.z2 →
      cubeVolume c = (c.x2 - c.x1 + 1) * (c.y2 - c.y1 + 1) * (c.z2 - c.z1 + 1)) ∧
    (c.x1 < c.x2 → c.y1 < c.y2 → c.z1 < c.z2 →
      cubeVolume (swapCorners c) =
        (c.x2 - c.x1 - 1) * (c.y2 - c.y1 - 1) * (c.z2 - c.z1 - 1) ∧
      cubeVolume (swapCorners c) < cubeVolume c) := by
  refine ⟨rfl, ?_, ?_⟩
  · intro hx hy hz
    unfold cubeVolume
    rw [abs_of_pos (by omega), abs_of_pos (by omega), abs_of_pos (by omega)]
  · intro hx hy hz
    have h1 : cubeVolume (swapCorners c) =
        (c.x2 - c.x1 - 1) * (c.y2 - c.y1 - 1) * (c.z2 - c.z1 - 1) := by
      unfold cubeVolume swapCorners
      simp only
      rw [abs_of_nonpos (by omega), abs_of_nonpos (by omega),
        abs_of_nonpos (by omega)]
      ring
    refine ⟨h1, ?_⟩
    have h2 : cubeVolume c =
        (c.x2 - c.x1 + 1) * (c.y2 - c.y1 + 1) * (c.z2 - c.z1 + 1) := by
      unfold cubeVolume
      rw [abs_of_pos (by omega), abs_of_pos (by omega), abs_of_pos (by omega)]
    rw [h1, h2]
    nlinarith [hx, hy, hz, mul_pos (mul_pos (by omega : (0:Int) < c.x2 - c.x1 + 1)
      (by omega : (0:Int) < c.y2 - c.y1 + 1)) (by omega : (0:Int) < c.z2 - c.z1 + 1)]

/-- C1, witness for the amended theorem at the region (0,64,0)-(10,74,10). -/
theorem volume_formula_witness :
    cubeVolume { x1 := 0, y1 := 64, z1 := 0, x2 := 10, y2 := 74, z2 := 10 } =
      (10 - 0 + 1) * (74 - 64 + 1) * (10 - 0 + 1) ∧
    cubeVolume (swapCorners { x1 := 0, y1 := 64, z1 := 0, x2 := 10, y2 := 74, z2 := 10 }) <
      cubeVolume { x1 := 0, y1 := 64, z1 := 0, x2 := 10, y2 := 74, z2 := 10 } := by
  refine ⟨(volume_formula _).2.1 (by decide) (by decide) (by decide),
    ((volume_formula { x1 := 0, y1 := 64, z1 := 0, x2 := 10, y2 := 74, z2 := 10 }).2.2
      (by decide) (by decide) (by decide)).2⟩

/-- C5: for a build request (action `build` or omitted) with either floored
corner's Y outside [-64, 320], the request fails with the bounds error and
issues zero gateway calls, whatever the world session is. -/
theorem y_bounds_guard (args : BuildArgs) (world : Option Gateway)
    (ha : args.action.getD "build" = "build")
    (hy : (floorCoords args).y1 < -64 ∨ (floorCoords args).y1 > 320 ∨
      (floorCoords args).y2 < -64 ∨ (floorCoords args).y2 > 320) :
    BuildCubeTool.execute world args =
      ({ success := false
         message := "Y coordinates must be between -64 and 320" }, []) := by
  unfold BuildCubeTool.execute
  simp [ha, hy]

/-- C5, witness: y1 = 1000 with a live gateway fails on bounds with no
fill calls. -/
theorem y_bounds_guard_witness :
    BuildCubeTool.execute (some gwOk7)
        { x1 := 0, y1 := 1000, z1 := 0, x2 := 5, y2 := 64, z2 := 5 } =
      ({ success := false
         message := "Y coordinates must be between -64 and 320" }, []) :=
  y_bounds_guard _ _ (by decide) (by decide)

/-- C6: coordinate normalization floors each of the six inputs toward
negative infinity (the result is the greatest integer not exceeding the
input), accepts every rational input, and is the identity on
already-integer coordinates. -/
theorem coordinate_normalization :
    (∀ a : BuildArgs,
      ((floorCoords a).x1 : ℚ) ≤ a.x1 ∧ a.x1 < (floorCoords a).x1 + 1 ∧
      ((floorCoords a).y1 : ℚ) ≤ a.y1 ∧ a.y1 < (floorCoords a).y1 + 1 ∧
      ((floorCoords a).z1 : ℚ) ≤ a.z1 ∧ a.z1 < (floorCoords a).z1 + 1 ∧
      ((floorCoords a).x2 : ℚ) ≤ a.x2 ∧ a.x2 < (floorCoords a).x2 + 1 ∧
      ((floorCoords a).y2 : ℚ) ≤ a.y2 ∧ a.y2 < (floorCoords a).y2 + 1 ∧
      ((floorCoords a).z2 : ℚ) ≤ a.z2 ∧ a.z2 < (floorCoords a).z2 + 1) ∧
    (∀ (c : Coords) (act mat : Option String) (hol : Option Bool),
      floorCoords
        { action := act
          x1 := (c.x1 : ℚ), y1 := (c.y1 : ℚ), z1 := (c.z1 : ℚ)
          x2 := (c.x2 : ℚ), y2 := (c.y2 : ℚ), z2 := (c.z2 : ℚ)
          material := mat, hollow := hol } = c) := by
  constructor
  · intro a
    refine ⟨Int.floor_le _, Int.lt_floor_add_one _, Int.floor_le _,
      Int.lt_floor_add_one _, Int.floor_le _, Int.lt_floor_add_one _,
      Int.floor_le _, Int.lt_floor_add_one _, Int.floor_le _,
      Int.lt_floor_add_one _, Int.floor_le _, Int.lt_floor_add_one _⟩
  · intro c act mat hol
    simp [floorCoords]

/-- C4, counterexample: a build request whose computed volume exceeds 32768
but whose Y is also out of bounds fails with the bounds message, not the
volume message — the claimed volume-error outcome does not occur. -/
theorem volume_guard_counterexample :
    cubeVolume (floorCoords bigOutOfBoundsArgs) > 32768 ∧
    (BuildCubeTool.execute none bigOutOfBoundsArgs).1.success = false ∧
    (BuildCubeTool.execute none bigOutOfBoundsArgs).1.message =
      "Y coordinates must be between -64 and 320" ∧
    (BuildCubeTool.execute none bigOutOfBoundsArgs).1.message ≠
      "Volume too large (maximum 32768 blocks)" := by
  refine ⟨by decide, by decide, by decide, by decide⟩

/-- C4, amended: a build request with in-range Y whose computed volume
exceeds 32768 fails with the volume error; and every build request whose
computed volume exceeds 32768 issues zero gateway calls, whatever else
holds. -/
theorem volume_guard :
    (∀ (args : BuildArgs) (world : Option Gateway),
      args.action.getD "build" = "build" →
      -64 ≤ (floorCoords args).y1 → (floorCoords args).y1 ≤ 320 →
      -64 ≤ (floorCoords args).y2 → (floorCoords args).y2 ≤ 320 →
      cubeVolume (floorCoords args) > 32768 →
      BuildCubeTool.execute world args =
        ({ success := false
           message := "Volume too large (maximum 32768 blocks)" }, [])) ∧
    (∀ (args : BuildArgs) (world : Option Gateway),
      cubeVolume (floorCoords args) > 32768 →
      (BuildCubeTool.execute world args).2 = []) := by
  constructor
  · intro args world ha hy1 hy2 hy3 hy4 hv
    have hyc : ¬((floorCoords args).y1 < -64 ∨ (floorCoords args).y1 > 320 ∨
        (floorCoords args).y2 < -64 ∨ (floorCoords args).y2 > 320) := by omega
    unfold BuildCubeTool.execute
    simp [ha, hyc, hv]
  · intro args world hv
    unfold BuildCubeTool.execute
    by_cases ha : args.action.getD "build" ≠ "build"
    · simp [ha]
    · by_cases hy : (floorCoords args).y1 < -64 ∨ (floorCoords args).y1 > 320 ∨
          (floorCoords args).y2 < -64 ∨ (floorCoords args).y2 > 320
      · simp [ha, hy]
      · simp [ha, hy, hv]

/-- C4, witness: a 33x33x33 request (volume 35937) with in-range Y fails
with the volume error and an empty call trace. -/
theorem volume_guard_witness :
    BuildCubeTool.execute (some gwOk7) bigVolumeArgs =
      ({ success := false
         message := "Volume too large (maximum 32768 blocks)" }, []) ∧
    (BuildCubeTool.execute none bigOutOfBoundsArgs).2 = [] := by
  exact ⟨volume_guard.1 bigVolumeArgs (some gwOk7) (by decide) (by decide)
      (by decide) (by decide) (by decide) (by decide),
    volume_guard.2 bigOutOfBoundsArgs none (by decide)⟩

/-- C2, counterexample: with no connected world session and y1 = 1000, the
build request fails with the height-bound message rather than the
connectivity message — the connectivity check does not run before the
height-bound check. -/
theorem connectivity_first_counterexample :
    (BuildCubeTool.execute none noWorldOutOfBoundsArgs).1.message =
      "Y coordinates must be between -64 and 320" ∧
    (BuildCubeTool.execute none noWorldOutOfBoundsArgs).1.message ≠
      "World not available. Ensure Minecraft is connected." := by
  refine ⟨by decide, by decide⟩

/-- C2, amended: for world-tool operations the missing-session check runs
first, before any action dispatch or gateway call, yielding the
connectivity failure for every argument; for build operations the
missing-session check runs after coordinate normalization, the
height-bound check, and the volume check, but still before any gateway
call: a build request that passes those checks with no session fails with
the connectivity error and issues zero gateway calls. -/
theorem connectivity_precedence :
    (∀ (now : Int) (execSeq : List SequenceStep → WorldResult × List WGCall)
      (args : WorldArgs),
      WorldTool.execute none now execSeq args =
        ({ success := false
           message := "World not available. Ensure Minecraft is connected." },
         [])) ∧
    (∀ args : BuildArgs,
      args.action.getD "build" = "build" →
      -64 ≤ (floorCoords args).y1 → (floorCoords args).y1 ≤ 320 →
      -64 ≤ (floorCoords args).y2 → (floorCoords args).y2 ≤ 320 →
      cubeVolume (floorCoords args) ≤ 32768 →
      BuildCubeTool.execute none args =
        ({ success := false
           message := "World not available. Ensure Minecraft is connected." },
         [])) := by
  constructor
  · intro now execSeq args
    rfl
  · intro args ha hy1 hy2 hy3 hy4 hv
    have hyc : ¬((floorCoords args).y1 < -64 ∨ (floorCoords args).y1 > 320 ∨
        (floorCoords args).y2 < -64 ∨ (floorCoords args).y2 > 320) := by omega
    have hvc : ¬(cubeVolume (floorCoords args) > 32768) := by omega
    unfold BuildCubeTool.execute
    simp [ha, hyc, hvc]

/-- C2, witness: the world tool with no session and a `get_day` request, and
the build tool with no session on scenario A, both return the connectivity
failure with no gateway calls. -/
theorem connectivity_precedence_witness :
    WorldTool.execute none 0 seqStub { action := "get_day" } =
      ({ success := false
         message := "World not available. Ensure Minecraft is connected." },
       []) ∧
    BuildCubeTool.execute none solidArgs =
      ({ success := false
         message := "World not available. Ensure Minecraft is connected." },
       []) :=
  ⟨connectivity_precedence.1 0 seqStub { action := "get_day" },
   connectivity_precedence.2 solidArgs (by decide) (by decide) (by decide)
     (by decide) (by decide) (by decide)⟩

/-- C3: for a validated hollow build whose outer fill resolves: if the
interior (per-axis min+1 .. max-1) is non-degenerate — equivalently every
axis span (max - min + 1) is at least 3 — exactly two gateway fill calls
occur, first the full region with the requested material and then the
interior with air, and the reported placed-count is the outer count minus
the inner count; otherwise exactly one gateway fill call occurs. -/
theorem hollow_fill_plan (args : BuildArgs) (g : Gateway) (n : Int)
    (ha : args.action.getD "build" = "build")
    (hy1 : -64 ≤ (floorCoords args).y1) (hy2 : (floorCoords args).y1 ≤ 320)
    (hy3 : -64 ≤ (floorCoords args).y2) (hy4 : (floorCoords args).y2 ≤ 320)
    (hv : cubeVolume (floorCoords args) ≤ 32768)
    (hh : args.hollow.getD false = true)
    (hout : g (outerCall (floorCoords args) (normalizeBlockId args.material)) =
      Except.ok n) :
    (¬ interiorExists (floorCoords args) →
      BuildCubeTool.execute (some g) args =
        (successResult (floorCoords args) (normalizeBlockId args.material)
          true n,
         [outerCall (floorCoords args) (normalizeBlockId args.material)])) ∧
    (∀ m : Int, interiorExists (floorCoords args) →
      g (innerCall (floorCoords args)) = Except.ok m →
      BuildCubeTool.execute (some g) args =
        (successResult (floorCoords args) (normalizeBlockId args.material)
          true (n - m),
         [outerCall (floorCoords args) (normalizeBlockId args.material),
          innerCall (floorCoords args)])) ∧
    (interiorExists (floorCoords args) ↔
      3 ≤ max (floorCoords args).x1 (floorCoords args).x2 -
            min (floorCoords args).x1 (floorCoords args).x2 + 1 ∧
      3 ≤ max (floorCoords args).y1 (floorCoords args).y2 -
            min (floorCoords args).y1 (floorCoords args).y2 + 1 ∧
      3 ≤ max (floorCoords args).z1 (floorCoords args).z2 -
            min (floorCoords args).z1 (floorCoords args).z2 + 1) := by
  have hyc : ¬((floorCoords args).y1 < -64 ∨ (floorCoords args).y1 > 320 ∨
      (floorCoords args).y2 < -64 ∨ (floorCoords args).y2 > 320) := by omega
  have hvc : ¬(cubeVolume (floorCoords args) > 32768) := by omega
  refine ⟨?_, ?_, ?_⟩
  · intro hni
    unfold BuildCubeTool.execute
    simp [ha, hyc, hvc, hh, hout, hni]
  · intro m hi hin
    unfold BuildCubeTool.execute
    simp [ha, hyc, hvc, hh, hout, hi, hin]
  · unfold interiorExists innerLo innerHi
    omega

/-- C3, witness: scenario B (hollow glass (0,64,0)-(10,74,10), counts
1331/729) issues exactly the outer then the inner call and reports
1331 - 729; the one-block-thick hollow slab (0,64,0)-(10,64,10) issues
exactly one call. -/
theorem hollow_fill_plan_witness :
    BuildCubeTool.execute (some gwGlass) hollowArgs =
      (successResult (floorCoords hollowArgs)
        (normalizeBlockId hollowArgs.material) true (1331 - 729),
       [outerCall (floorCoords hollowArgs)
          (normalizeBlockId hollowArgs.material),
        innerCall (floorCoords hollowArgs)]) ∧
    BuildCubeTool.execute (some gwOk7) thinHollowArgs =
      (successResult (floorCoords thinHollowArgs)
        (normalizeBlockId thinHollowArgs.material) true 7,
       [outerCall (floorCoords thinHollowArgs)
          (normalizeBlockId thinHollowArgs.material)]) :=
  ⟨(hollow_fill_plan hollowArgs gwGlass 1331 (by decide) (by decide) (by decide)
      (by decide) (by decide) (by decide) (by decide) (by rfl)).2.1 729
      (by decide) (by rfl),
   (hollow_fill_plan thinHollowArgs gwOk7 7 (by decide) (by decide) (by decide)
      (by decide) (by decide) (by decide) (by decide) (by rfl)).1
      (by decide)⟩

/-- C7: a material without a namespace separator is submitted with the
`minecraft:` namespace put in front, a material that already contains a
separator is submitted unchanged, an omitted material defaults to
`minecraft:stone`, and every fill call the build tool issues carries either
this normalized block id or the fixed interior material `minecraft:air`. -/
theorem material_namespacing :
    (∀ m : String, m.data.contains ':' = true → normalizeBlockId (some m) = m) ∧
    (∀ m : String, m.data.contains ':' = false →
      normalizeBlockId (some m) = "minecraft:" ++ m) ∧
    normalizeBlockId none = "minecraft:stone" ∧
    (∀ (args : BuildArgs) (world : Option Gateway) (c : FillCall),
      c ∈ (BuildCubeTool.execute world args).2 →
      c.blockId = normalizeBlockId args.material ∨
        c.blockId = "minecraft:air") := by
  refine ⟨?_, ?_, by decide, ?_⟩
  · intro m h
    have h' : ':' ∈ m.data := by simpa using h
    simp [normalizeBlockId, h']
  · intro m h
    have h' : ':' ∉ m.data := by simpa using h
    simp [normalizeBlockId, h']
  · intro args world c hc
    by_cases ha : args.action.getD "build" = "build"
    case neg => simp [BuildCubeTool.execute, ha] at hc
    by_cases hy : (floorCoords args).y1 < -64 ∨ (floorCoords args).y1 > 320 ∨
        (floorCoords args).y2 < -64 ∨ (floorCoords args).y2 > 320
    case pos => simp [BuildCubeTool.execute, ha, hy] at hc
    by_cases hv : cubeVolume (floorCoords args) > 32768
    case pos => simp [BuildCubeTool.execute, ha, hy, hv] at hc
    rcases world with _ | g
    · simp [BuildCubeTool.execute, ha, hy, hv] at hc
    by_cases hh : args.hollow.getD false = true
    · cases hout : g (outerCall (floorCoords args) (normalizeBlockId args.material)) with
      | error e =>
        simp [BuildCubeTool.execute, ha, hy, hv, hh, hout] at hc
        subst hc
        exact Or.inl rfl
      | ok n =>
        by_cases hi : interiorExists (floorCoords args)
        · cases hin : g (innerCall (floorCoords args)) with
          | error e2 =>
            simp [BuildCubeTool.execute, ha, hy, hv, hh, hout, hi, hin] at hc
            rcases hc with hc | hc <;> subst hc
            · exact Or.inl rfl
            · exact Or.inr rfl
          | ok m =>
            simp [BuildCubeTool.execute, ha, hy, hv, hh, hout, hi, hin] at hc
            rcases hc with hc | hc <;> subst hc
            · exact Or.inl rfl
            · exact Or.inr rfl
        · simp [BuildCubeTool.execute, ha, hy, hv, hh, hout, hi] at hc
          subst hc
          exact Or.inl rfl
    · cases hout : g (outerCall (floorCoords args) (normalizeBlockId args.material)) with
      | error e =>
        simp [BuildCubeTool.execute, ha, hy, hv, hh, hout] at hc
        subst hc
        exact Or.inl rfl
      | ok n =>
        simp [BuildCubeTool.execute, ha, hy, hv, hh, hout] at hc
        subst hc
        exact Or.inl rfl

/-- C7, witness: `glass` is submitted as `minecraft:glass` (the outer call
of the hollow glass scenario), an already-namespaced id is unchanged, and
the one call issued on that trace carries the normalized id or air. -/
theorem material_namespacing_witness :
    normalizeBlockId (some "minecraft:glowstone") = "minecraft:glowstone" ∧
    normalizeBlockId (some "glass") = "minecraft:glass" ∧
    ((outerCall (floorCoords hollowArgs)
        (normalizeBlockId hollowArgs.material)).blockId =
        normalizeBlockId hollowArgs.material ∨
      (outerCall (floorCoords hollowArgs)
        (normalizeBlockId hollowArgs.material)).blockId = "minecraft:air") :=
  ⟨material_namespacing.1 "minecraft:glowstone" (by decide),
   material_namespacing.2.1 "glass" (by decide),
   material_namespacing.2.2.2 hollowArgs (some gwGlass)
     (outerCall (floorCoords hollowArgs) (normalizeBlockId hollowArgs.material))
     (by decide)⟩

/-- C8: whenever a gateway call rejects, the error is caught at the call
site and the operation returns a failure outcome whose message carries the
underlying error's message — for every fill site of the build tool
(solid, hollow outer, hollow inner) and every awaited gateway site of the
world tool; no gateway error escapes (both `execute` functions are total,
so nothing propagates as an uncaught exception). -/
theorem gateway_errors_wrapped :
    (∀ (args : BuildArgs) (g : Gateway) (e : String),
      args.action.getD "build" = "build" →
      -64 ≤ (floorCoords args).y1 → (floorCoords args).y1 ≤ 320 →
      -64 ≤ (floorCoords args).y2 → (floorCoords args).y2 ≤ 320 →
      cubeVolume (floorCoords args) ≤ 32768 →
      args.hollow.getD false = false →
      g (outerCall (floorCoords args) (normalizeBlockId args.material)) =
        Except.error e →
      BuildCubeTool.execute (some g) args =
        (buildingError e,
         [outerCall (floorCoords args) (normalizeBlockId args.material)])) ∧
    (∀ (args : BuildArgs) (g : Gateway) (e : String),
      args.action.getD "build" = "build" →
      -64 ≤ (floorCoords args).y1 → (floorCoords args).y1 ≤ 320 →
      -64 ≤ (floorCoords args).y2 → (floorCoords args).y2 ≤ 320 →
      cubeVolume (floorCoords args) ≤ 32768 →
      args.hollow.getD false = true →
      g (outerCall (floorCoords args) (normalizeBlockId args.material)) =
        Except.error e →
      BuildCubeTool.execute (some g) args =
        (buildingError e,
         [outerCall (floorCoords args) (normalizeBlockId args.material)])) ∧
    (∀ (args : BuildArgs) (g : Gateway) (n : Int) (e : String),
      args.action.getD "build" = "build" →
      -64 ≤ (floorCoords args).y1 → (floorCoords args).y1 ≤ 320 →
      -64 ≤ (floorCoords args).y2 → (floorCoords args).y2 ≤ 320 →
      cubeVolume (floorCoords args) ≤ 32768 →
      args.hollow.getD false = true →
      g (outerCall (floorCoords args) (normalizeBlockId args.material)) =
        Except.ok n →
      interiorExists (floorCoords args) →
      g (innerCall (floorCoords args)) = Except.error e →
      BuildCubeTool.execute (some g) args =
        (buildingError e,
         [outerCall (floorCoords args) (normalizeBlockId args.material),
          innerCall (floorCoords args)])) ∧
    (∀ (args : WorldArgs) (w : WorldGW) (now : Int)
      (execSeq : List SequenceStep → WorldResult × List WGCall)
      (t : Int) (e : String),
      args.action = "set_time" → args.time = some t →
      w.setTimeOfDay t = Except.error e →
      WorldTool.execute (some w) now execSeq args =
        (worldError e, [WGCall.setTimeOfDay t])) ∧
    (∀ (args : WorldArgs) (w : WorldGW) (now : Int)
      (execSeq : List SequenceStep → WorldResult × List WGCall) (e : String),
      args.action = "get_time" → w.getTimeOfDay = Except.error e →
      WorldTool.execute (some w) now execSeq args =
        (worldError e, [WGCall.getTimeOfDay])) ∧
    (∀ (args : WorldArgs) (w : WorldGW) (now : Int)
      (execSeq : List SequenceStep → WorldResult × List WGCall)
      (t : Int) (e : String),
      args.action = "get_time" → w.getTimeOfDay = Except.ok t →
      w.getDay = Except.error e →
      WorldTool.execute (some w) now execSeq args =
        (worldError e, [WGCall.getTimeOfDay, WGCall.getDay])) ∧
    (∀ (args : WorldArgs) (w : WorldGW) (now : Int)
      (execSeq : List SequenceStep → WorldResult × List WGCall)
      (t d : Int) (e : String),
      args.action = "get_time" → w.getTimeOfDay = Except.ok t →
      w.getDay = Except.ok d → w.getCurrentTick = Except.error e →
      WorldTool.execute (some w) now execSeq args =
        (worldError e,
         [WGCall.getTimeOfDay, WGCall.getDay, WGCall.getCurrentTick])) ∧
    (∀ (args : WorldArgs) (w : WorldGW) (now : Int)
      (execSeq : List SequenceStep → WorldResult × List WGCall) (e : String),
      args.action = "get_day" → w.getDay = Except.error e →
      WorldTool.execute (some w) now execSeq args =
        (worldError e, [WGCall.getDay])) ∧
    (∀ (args : WorldArgs) (w : WorldGW) (now : Int)
      (execSeq : List SequenceStep → WorldResult × List WGCall)
      (s : String) (e : String),
      args.action = "set_weather" → args.weather = some s → s ≠ "" →
      w.setWeather (normalizeWeatherType s) args.duration = Except.error e →
      WorldTool.execute (some w) now execSeq args =
        (worldError e,
         [WGCall.setWeather (normalizeWeatherType s) args.duration])) ∧
    (∀ (args : WorldArgs) (w : WorldGW) (now : Int)
      (execSeq : List SequenceStep → WorldResult × List WGCall) (e : String),
      args.action = "get_weather" → w.getWeather = Except.error e →
      WorldTool.execute (some w) now execSeq args =
        (worldError e, [WGCall.getWeather])) ∧
    (∀ (args : WorldArgs) (w : WorldGW) (now : Int)
      (execSeq : List SequenceStep → WorldResult × List WGCall) (e : String),
      args.action = "get_players" → w.getPlayers = Except.error e →
      WorldTool.execute (some w) now execSeq args =
        (worldError e, [WGCall.getPlayers])) ∧
    (∀ (args : WorldArgs) (w : WorldGW) (now : Int)
      (execSeq : List SequenceStep → WorldResult × List WGCall)
      (m : String) (e : String),
      args.action = "send_message" → args.message = some m → m ≠ "" →
      w.sendMessage m args.target = Except.error e →
      WorldTool.execute (some w) now execSeq args =
        (worldError e, [WGCall.sendMessage m args.target])) ∧
    (∀ (args : WorldArgs) (w : WorldGW) (now : Int)
      (execSeq : List SequenceStep → WorldResult × List WGCall)
      (cmd : String) (e : String),
      args.action = "run_command" → args.command = some cmd → cmd ≠ "" →
      w.runCommand cmd = Except.error e →
      WorldTool.execute (some w) now execSeq args =
        (worldError e, [WGCall.runCommand cmd])) := by
  refine ⟨?_, ?_, ?_, ?_, ?_, ?_, ?_, ?_, ?_, ?_, ?_, ?_, ?_⟩
  · intro args g e ha hy1 hy2 hy3 hy4 hv hh herr
    have hyc : ¬((floorCoords args).y1 < -64 ∨ (floorCoords args).y1 > 320 ∨
        (floorCoords args).y2 < -64 ∨ (floorCoords args).y2 > 320) := by omega
    have hvc : ¬(cubeVolume (floorCoords args) > 32768) := by omega
    unfold BuildCubeTool.execute
    simp [ha, hyc, hvc, hh, herr]
  · intro args g e ha hy1 hy2 hy3 hy4 hv hh herr
    have hyc : ¬((floorCoords args).y1 < -64 ∨ (floorCoords args).y1 > 320 ∨
        (floorCoords args).y2 < -64 ∨ (floorCoords args).y2 > 320) := by omega
    have hvc : ¬(cubeVolume (floorCoords args) > 32768) := by omega
    unfold BuildCubeTool.execute
    simp [ha, hyc, hvc, hh, herr]
  · intro args g n e ha hy1 hy2 hy3 hy4 hv hh hout hi hin
    have hyc : ¬((floorCoords args).y1 < -64 ∨ (floorCoords args).y1 > 320 ∨
        (floorCoords args).y2 < -64 ∨ (floorCoords args).y2 > 320) := by omega
    have hvc : ¬(cubeVolume (floorCoords args) > 32768) := by omega
    unfold BuildCubeTool.execute
    simp [ha, hyc, hvc, hh, hout, hi, hin]
  · intro args w now execSeq t e ha ht herr
    unfold WorldTool.execute
    simp [ha, ht, herr]
  · intro args w now execSeq e ha herr
    unfold WorldTool.execute
    simp [ha, herr]
  · intro args w now execSeq t e ha h1 herr
    unfold WorldTool.execute
    simp [ha, h1, herr]
  · intro args w now execSeq t d e ha h1 h2 herr
    unfold WorldTool.execute
    simp [ha, h1, h2, herr]
  · intro args w now execSeq e ha herr
    unfold WorldTool.execute
    simp [ha, herr]
  · intro args w now execSeq s e ha hw hs herr
    unfold WorldTool.execute
    simp [ha, hw, hs, herr]
  · intro args w now execSeq e ha herr
    unfold WorldTool.execute
    simp [ha, herr]
  · intro args w now execSeq e ha herr
    unfold WorldTool.execute
    simp [ha, herr]
  · intro args w now execSeq m e ha hm hne herr
    unfold WorldTool.execute
    simp [ha, hm, hne, herr]
  · intro args w now execSeq cmd e ha hcmd hne herr
    unfold WorldTool.execute
    simp [ha, hcmd, hne, herr]

/-- C8, witness: a rejecting gateway on the solid scenario-A build yields
the wrapped failure `Building error: boom` and exactly the one attempted
call; a rejecting `setTimeOfDay` yields `World management error: boom`. -/
theorem gateway_errors_wrapped_witness :
    BuildCubeTool.execute (some gwBoom) solidArgs =
      (buildingError "boom",
       [outerCall (floorCoords solidArgs)
          (normalizeBlockId solidArgs.material)]) ∧
    WorldTool.execute (some wgwBoom) 0 seqStub
        { action := "set_time", time := some 6000 } =
      (worldError "boom", [WGCall.setTimeOfDay 6000]) :=
  ⟨gateway_errors_wrapped.1 solidArgs gwBoom "boom" (by decide) (by decide)
      (by decide) (by decide) (by decide) (by decide) (by decide) (by rfl),
   gateway_errors_wrapped.2.2.2.1
     { action := "set_time", time := some 6000 } wgwBoom 0 seqStub 6000 "boom"
     (by rfl) (by rfl) (by rfl)⟩

/-- C9: in every successful build outcome the `volume` field of the
returned data is the gateway-reported net blocks-placed count — the outer
fill's count for a solid build, the outer minus the inner count for a
hollow build with an interior, and the outer count alone for a hollow
build whose interior is degenerate (no inner fill occurs) — and not the
geometric bounding-box volume of the pre-flight check, from which it can
differ (scenario A with a gateway reporting 7: the data carries 7 while
the bounding box holds 1331 cells). -/
theorem reported_volume_is_net_count :
    (∀ (args : BuildArgs) (g : Gateway) (n : Int),
      args.action.getD "build" = "build" →
      -64 ≤ (floorCoords args).y1 → (floorCoords args).y1 ≤ 320 →
      -64 ≤ (floorCoords args).y2 → (floorCoords args).y2 ≤ 320 →
      cubeVolume (floorCoords args) ≤ 32768 →
      args.hollow.getD false = false →
      g (outerCall (floorCoords args) (normalizeBlockId args.material)) =
        Except.ok n →
      Option.map BuildData.volume
        (BuildCubeTool.execute (some g) args).1.data = some n) ∧
    (∀ (args : BuildArgs) (g : Gateway) (n m : Int),
      args.action.getD "build" = "build" →
      -64 ≤ (floorCoords args).y1 → (floorCoords args).y1 ≤ 320 →
      -64 ≤ (floorCoords args).y2 → (floorCoords args).y2 ≤ 320 →
      cubeVolume (floorCoords args) ≤ 32768 →
      args.hollow.getD false = true →
      g (outerCall (floorCoords args) (normalizeBlockId args.material)) =
        Except.ok n →
      interiorExists (floorCoords args) →
      g (innerCall (floorCoords args)) = Except.ok m →
      Option.map BuildData.volume
        (BuildCubeTool.execute (some g) args).1.data = some (n - m)) ∧
    (∀ (args : BuildArgs) (g : Gateway) (n : Int),
      args.action.getD "build" = "build" →
      -64 ≤ (floorCoords args).y1 → (floorCoords args).y1 ≤ 320 →
      -64 ≤ (floorCoords args).y2 → (floorCoords args).y2 ≤ 320 →
      cubeVolume (floorCoords args) ≤ 32768 →
      args.hollow.getD false = true →
      g (outerCall (floorCoords args) (normalizeBlockId args.material)) =
        Except.ok n →
      ¬ interiorExists (floorCoords args) →
      Option.map BuildData.volume
        (BuildCubeTool.execute (some g) args).1.data = some n) ∧
    (Option.map BuildData.volume
        (BuildCubeTool.execute (some gwOk7) solidArgs).1.data = some 7 ∧
      cubeVolume (floorCoords solidArgs) = 1331 ∧ (7 : Int) ≠ 1331) := by
  refine ⟨?_, ?_, ?_, by decide, by decide, by decide⟩
  · intro args g n ha hy1 hy2 hy3 hy4 hv hh hok
    have hyc : ¬((floorCoords args).y1 < -64 ∨ (floorCoords args).y1 > 320 ∨
        (floorCoords args).y2 < -64 ∨ (floorCoords args).y2 > 320) := by omega
    have hvc : ¬(cubeVolume (floorCoords args) > 32768) := by omega
    unfold BuildCubeTool.execute
    simp [ha, hyc, hvc, hh, hok, successResult]
  · intro args g n m ha hy1 hy2 hy3 hy4 hv hh hout hi hin
    have hyc : ¬((floorCoords args).y1 < -64 ∨ (floorCoords args).y1 > 320 ∨
        (floorCoords args).y2 < -64 ∨ (floorCoords args).y2 > 320) := by omega
    have hvc : ¬(cubeVolume (floorCoords args) > 32768) := by omega
    unfold BuildCubeTool.execute
    simp [ha, hyc, hvc, hh, hout, hi, hin, successResult]
  · intro args g n ha hy1 hy2 hy3 hy4 hv hh hout hni
    have hyc : ¬((floorCoords args).y1 < -64 ∨ (floorCoords args).y1 > 320 ∨
        (floorCoords args).y2 < -64 ∨ (floorCoords args).y2 > 320) := by omega
    have hvc : ¬(cubeVolume (floorCoords args) > 32768) := by omega
    unfold BuildCubeTool.execute
    simp [ha, hyc, hvc, hh, hout, hni, successResult]

/-- C9, witness: with a gateway reporting 7 for everything, the solid
scenario-A result data carries volume 7; the hollow glass scenario with
counts 1331/729 carries 1331 - 729; the successful hollow slab with no
interior carries the outer count 7. -/
theorem reported_volume_is_net_count_witness :
    Option.map BuildData.volume
      (BuildCubeTool.execute (some gwOk7) solidArgs).1.data = some 7 ∧
    Option.map BuildData.volume
      (BuildCubeTool.execute (some gwGlass) hollowArgs).1.data =
      some (1331 - 729) ∧
    Option.map BuildData.volume
      (BuildCubeTool.execute (some gwOk7) thinHollowArgs).1.data = some 7 :=
  ⟨reported_volume_is_net_count.1 solidArgs gwOk7 7 (by decide) (by decide)
      (by decide) (by decide) (by decide) (by decide) (by decide) (by rfl),
   reported_volume_is_net_count.2.1 hollowArgs gwGlass 1331 729 (by decide)
      (by decide) (by decide) (by decide) (by decide) (by decide) (by decide)
      (by rfl) (by decide) (by rfl),
   reported_volume_is_net_count.2.2.1 thinHollowArgs gwOk7 7 (by decide)
      (by decide) (by decide) (by decide) (by decide) (by decide) (by decide)
      (by rfl) (by decide)⟩

/-- C10: weather-type normalization is total and never fails: `clear`,
`rain` and `thunder` compared after lower-casing map to their weather
types, every other string maps to Clear, and a `set_weather` action with
any non-empty weather string issues exactly one `setWeather` gateway call
carrying the normalized type (never a validation failure). -/
theorem weather_normalization_total :
    (∀ s : String, lowercase s = "clear" →
      normalizeWeatherType s = WeatherType.Clear) ∧
    (∀ s : String, lowercase s = "rain" →
      normalizeWeatherType s = WeatherType.Rain) ∧
    (∀ s : String, lowercase s = "thunder" →
      normalizeWeatherType s = WeatherType.Thunder) ∧
    (∀ s : String, lowercase s ≠ "clear" → lowercase s ≠ "rain" →
      lowercase s ≠ "thunder" → normalizeWeatherType s = WeatherType.Clear) ∧
    (∀ (w : WorldGW) (now : Int)
      (execSeq : List SequenceStep → WorldResult × List WGCall)
      (args : WorldArgs) (s : String),
      args.action = "set_weather" → args.weather = some s → s ≠ "" →
      (WorldTool.execute (some w) now execSeq args).2 =
        [WGCall.setWeather (normalizeWeatherType s) args.duration]) := by
  refine ⟨?_, ?_, ?_, ?_, ?_⟩
  · intro s h
    unfold normalizeWeatherType
    simp [h]
  · intro s h
    unfold normalizeWeatherType
    simp [h]
  · intro s h
    unfold normalizeWeatherType
    simp [h]
  · intro s h1 h2 h3
    unfold normalizeWeatherType
    simp [h1, h2, h3]
  · intro w now execSeq args s ha hw hs
    unfold WorldTool.execute
    rcases h : w.setWeather (normalizeWeatherType s) args.duration with e | u <;>
      simp [ha, hw, hs, h]

/-- C10, witness: `CLEAR` maps to Clear case-insensitively, the
unrecognized string `fog` maps to Clear, and a `set_weather` request with
weather `fog` still issues the gateway call with the Clear type. -/
theorem weather_normalization_total_witness :
    normalizeWeatherType "CLEAR" = WeatherType.Clear ∧
    normalizeWeatherType "fog" = WeatherType.Clear ∧
    (WorldTool.execute (some wgwOk) 0 seqStub
        { action := "set_weather", weather := some "fog" }).2 =
      [WGCall.setWeather (normalizeWeatherType "fog") none] :=
  ⟨weather_normalization_total.1 "CLEAR" (by decide),
   weather_normalization_total.2.2.2.1 "fog" (by decide) (by decide) (by decide),
   weather_normalization_total.2.2.2.2 wgwOk 0 seqStub
     { action := "set_weather", weather := some "fog" } "fog" (by rfl) (by rfl)
     (by decide)⟩

end MCB
